import Mathlib

/-!
Verification of the authentication/authorization core of the gobank API
server (src/api/account.go): token issuance (`createJWT`), token
validation (`validateJWT`), the ownership guard middleware
(`withJWTAuth`), and the route table of `Run`.

Modelling conventions (shallow embedding of the Go source):
* A decoded JWT claim set (`jwt.MapClaims`) is a finite association list
  from claim names to JSON values.  Numeric JSON values are modelled as
  integers (`Int`); the Go code only ever stores and compares integral
  numbers (`account.Number` and the literal 15000), converted through
  `float64` by `encoding/json`, which is exact for these magnitudes.
* HMAC signing is modelled abstractly: a signature is determined by the
  signing key, the algorithm, and the signed claim payload, and
  verification succeeds exactly when the recomputed signature equals the
  attached one.  This captures correctness and key/payload binding of
  HMAC without modelling the hash itself.
* A wire token (the `x-jwt-token` header value) is `Option Token`:
  `none` stands for a header string that fails structural JWT decoding,
  including the empty string returned by `r.Header.Get` when the header
  is absent.
* `os.Getenv "JWT_SECRET"` is modelled by an `Env := Option String`
  value; Go's `Getenv` returns the empty string when the variable is
  unset, which is `getenvJwtSecret`.
* The storage collaborator's `GetAccountByID` is a function
  `Int → Option Account`; `none` is the not-found/backend error.
* The guard's observable behaviour is a `GuardResult`: the outcome
  (rejection response written, Go runtime panic from a failed type
  assertion, or handing over to the wrapped handler) together with
  whether `s.GetAccountByID` was called on the way.
-/

namespace GoBank

/-- A JSON value as it appears in a decoded claim set.  Go's
`encoding/json` decodes JSON numbers into `float64`; the numbers this
program handles are integral, so they are modelled as `Int`. -/
inductive JValue where
  | num (n : Int)
  | str (s : String)
  | boolean (b : Bool)
  | null
deriving DecidableEq, Repr

/-- A decoded claim set (`jwt.MapClaims`): claim name to JSON value. -/
abbrev Claims := List (String × JValue)

/-- Map lookup on a claim set, as Go's `claims[k]` (first binding wins;
the Go map has distinct keys). -/
def lookupClaim (k : String) : Claims → Option JValue
  | [] => none
  | (k₂, v) :: rest => if k₂ = k then some v else lookupClaim k rest

/-- JWT signing algorithms relevant to this program: the symmetric HMAC
family member used by `createJWT`, and a representative non-HMAC method
for algorithm-substitution inputs. -/
inductive SigningMethod where
  | HS256
  | RS256
deriving DecidableEq, Repr

/-- The keyfunc's type check `token.Method.(*jwt.SigningMethodHMAC)`. -/
def SigningMethod.isHMAC : SigningMethod → Bool
  | .HS256 => true
  | .RS256 => false

/-- An HMAC signature, modelled abstractly as the data that determines
it: the key, the algorithm, and the signed claim payload.  Verification
recomputes this value and compares. -/
structure Signature where
  key : String
  method : SigningMethod
  payload : Claims
deriving DecidableEq, Repr

/-- A structurally well-formed JWT: declared algorithm, claim set, and
attached signature. -/
structure Token where
  method : SigningMethod
  claims : Claims
  sig : Signature
deriving DecidableEq, Repr

/-- The process environment restricted to `JWT_SECRET`: `none` when the
variable is unset. -/
abbrev Env := Option String

/-- `os.Getenv "JWT_SECRET"`: yields the empty string when unset. -/
def getenvJwtSecret (env : Env) : String := env.getD ""

/-- An account record (`types.Account`) as the verified components see
it: the ownership guard and token issuer consult only `Number`, and the
storage lookup is keyed by `ID`; the remaining fields (names, password
hash, balance, creation time) are never read on these paths. -/
structure Account where
  id : Int
  number : Int
deriving DecidableEq, Repr

/-- The storage collaborator's `GetAccountByID`: `none` models the
error return (account absent). -/
abbrev Store := Int → Option Account

/-- `createJWT` (src/api/account.go:232-242): builds the claim set
`{"expiresAt": 15000, "accountNumber": account.Number}`, reads the
secret from the environment, and signs with HS256.  The ambient issue
time is passed in to make explicit that the function never consults it;
`expiresAt` is the literal constant 15000.  The Go `SignedString` error
return is kept in the type; HMAC signing itself does not fail. -/
def createJWT (env : Env) (account : Account) (_issueTime : Int) : Except String Token :=
  .ok { method := .HS256,
        claims := [("expiresAt", .num 15000), ("accountNumber", .num account.number)],
        sig := { key := getenvJwtSecret env,
                 method := .HS256,
                 payload := [("expiresAt", .num 15000), ("accountNumber", .num account.number)] } }

/-- The error classes of `jwt.Parse` as they occur on this code path. -/
inductive JwtError where
  | malformed
  | unexpectedAlg
  | expired
  | badSignature
deriving DecidableEq, Repr

/-- A parsed `*jwt.Token` as returned by `jwt.Parse`: decoded method
and claims, plus the `Valid` flag (set exactly when parsing, claim
validation and signature verification all succeeded). -/
structure ParsedToken where
  method : SigningMethod
  claims : Claims
  valid : Bool
deriving DecidableEq, Repr

/-- `jwt.MapClaims.Valid` of golang-jwt/jwt v4 at time `now`: checks
the registered claims `exp`, `iat`, `nbf`, each only when present
(`required = false`).  A present claim of non-numeric type fails. -/
def mapClaimsValid (claims : Claims) (now : Int) : Bool :=
  (match lookupClaim "exp" claims with
   | some (.num e) => decide (now < e)
   | some _ => false
   | none => true)
  && (match lookupClaim "iat" claims with
   | some (.num i) => decide (i ≤ now)
   | some _ => false
   | none => true)
  && (match lookupClaim "nbf" claims with
   | some (.num n) => decide (n ≤ now)
   | some _ => false
   | none => true)

/-- `validateJWT` (src/api/account.go:221-230): reads the secret from
the environment and runs `jwt.Parse` with a keyfunc that insists on the
HMAC family.  Parse order: structural decode, algorithm check, claim
validation (registered claims at current time `now`), signature
verification against the secret.  On success the returned token has
`Valid = true`. -/
def validateJWT (env : Env) (now : Int) : Option Token → Except JwtError ParsedToken
  | none => .error .malformed
  | some t =>
    if t.method.isHMAC = false then .error .unexpectedAlg
    else if mapClaimsValid t.claims now = false then .error .expired
    else if t.sig = { key := getenvJwtSecret env, method := t.method, payload := t.claims } then
      .ok { method := t.method, claims := t.claims, valid := true }
    else .error .badSignature

/-- An incoming HTTP request as the guard observes it: the
`x-jwt-token` header (`none`: absent or not structurally a JWT) and the
`{id}` path variable as consumed by `strconv.Atoi` (`none`: the path
segment is not a valid integer). -/
structure Request where
  xJwtToken : Option Token
  pathId : Option Int
deriving Repr

/-- `getID` (src/api/account.go:259-266): `strconv.Atoi` on the mux
path variable. -/
def getID (r : Request) : Except String Int :=
  match r.pathId with
  | none => .error "This id is not a valid integer"
  | some id => .ok id

/-- How a pass through the guard middleware ends. -/
inductive Outcome where
  | reject (status : Nat) (msg : String)
  | panicked
  | proceed
deriving DecidableEq, Repr

/-- Observable behaviour of one pass through `withJWTAuth`: the
outcome, and whether `s.GetAccountByID` was invoked. -/
structure GuardResult where
  outcome : Outcome
  storeLookup : Bool
deriving DecidableEq, Repr

/-- `withJWTAuth` (src/api/account.go:178-218), straight-line
translation: read the header, validate the token (error → 403
"permission denied"), check `token.Valid` (false → same 403), parse the
path id (error → same 403), load the account (`GetAccountByID` error →
400 "This account does not exist"), extract
`claims["accountNumber"].(float64)` (a failed type assertion is a Go
panic), compare against `account.Number` (mismatch → same 403), and
otherwise invoke the wrapped handler. -/
def withJWTAuth (store : Store) (env : Env) (now : Int) (r : Request) : GuardResult :=
  match validateJWT env now r.xJwtToken with
  | .error _ => { outcome := .reject 403 "permission denied", storeLookup := false }
  | .ok token =>
    if token.valid = false then { outcome := .reject 403 "permission denied", storeLookup := false }
    else
      match getID r with
      | .error _ => { outcome := .reject 403 "permission denied", storeLookup := false }
      | .ok userID =>
        match store userID with
        | none => { outcome := .reject 400 "This account does not exist", storeLookup := true }
        | some account =>
          match lookupClaim "accountNumber" token.claims with
          | some (.num n) =>
            if account.number ≠ n then { outcome := .reject 403 "permission denied", storeLookup := true }
            else { outcome := .proceed, storeLookup := true }
          | _ => { outcome := .panicked, storeLookup := true }

/-- The handlers registered by `Run` (src/api/account.go:28-39). -/
inductive HandlerName where
  | handleLogin
  | handleAccount
  | handleAccountWithID
  | handleTransfer
deriving DecidableEq, Repr

/-- A route-table entry: a handler wrapped only in `makeHTTPHandleFunc`
(`plain`), or additionally in `withJWTAuth` (`jwtWrapped`). -/
inductive RouteEntry where
  | plain (h : HandlerName)
  | jwtWrapped (h : HandlerName)
deriving DecidableEq, Repr

/-- The route table built by `Run` (src/api/account.go:31-34). -/
def router : String → Option RouteEntry
  | "/login" => some (.plain .handleLogin)
  | "/account" => some (.plain .handleAccount)
  | "/account/{id}" => some (.jwtWrapped .handleAccountWithID)
  | "/transfer" => some (.plain .handleTransfer)
  | _ => none

/-- Observable behaviour of dispatching one request to a route entry:
whether token validation ran, whether the route's own handler was
invoked, and the guard trace when the entry is JWT-wrapped. -/
structure ServeResult where
  tokenChecked : Bool
  handlerInvoked : Bool
  guard : Option GuardResult
deriving Repr

/-- Dispatch of a matched route.  `makeHTTPHandleFunc`
(src/api/account.go:250-257) unconditionally calls the wrapped
`apiFunc`, so a `plain` entry always reaches its handler and never
touches the token; a `jwtWrapped` entry runs `withJWTAuth` and reaches
the handler exactly when the guard proceeds. -/
def dispatch (store : Store) (env : Env) (now : Int) : RouteEntry → Request → ServeResult
  | .plain _, _ => { tokenChecked := false, handlerInvoked := true, guard := none }
  | .jwtWrapped _, r =>
    { tokenChecked := true,
      handlerInvoked := decide ((withJWTAuth store env now r).outcome = .proceed),
      guard := some (withJWTAuth store env now r) }

/-! ## Concrete fixtures used by witnesses and counterexamples -/

/-- A sample environment with `JWT_SECRET` set. -/
def envA : Env := some "hunter2"

/-- Sample account with id 1 and number 42. -/
def acct42 : Account := { id := 1, number := 42 }

/-- Sample account with id 2 and number 99. -/
def acct99 : Account := { id := 2, number := 99 }

/-- A sample storage backend holding `acct42` and `acct99`. -/
def demoStore : Store := fun id =>
  if id = 1 then some acct42 else if id = 2 then some acct99 else none

/-- The token `createJWT envA acct42` issues (at any issue time). -/
def tok42 : Token :=
  { method := .HS256,
    claims := [("expiresAt", .num 15000), ("accountNumber", .num 42)],
    sig := { key := "hunter2", method := .HS256,
             payload := [("expiresAt", .num 15000), ("accountNumber", .num 42)] } }

/-- A token signed with the server secret whose claim set has no
`accountNumber` entry: `jwt.Parse` accepts it, yet the guard's
`claims["accountNumber"].(float64)` type assertion has nothing numeric
to extract. -/
def noNumberToken : Token :=
  { method := .HS256, claims := [("role", .str "admin")],
    sig := { key := "hunter2", method := .HS256, payload := [("role", .str "admin")] } }

/-! ## Helper lemmas -/

/-- Inversion for a successful `validateJWT`: the wire value was a
structurally well-formed token, and the parsed result carries that
token's method and claims with `Valid = true`. -/
theorem validateJWT_ok_elim (env : Env) (now : Int) (w : Option Token) (p : ParsedToken)
    (h : validateJWT env now w = Except.ok p) :
    ∃ t, w = some t ∧ p.method = t.method ∧ p.claims = t.claims ∧ p.valid = true := by
  cases w with
  | none => simp [validateJWT] at h
  | some t =>
    simp only [validateJWT] at h
    by_cases h1 : t.method.isHMAC = false
    · rw [if_pos h1] at h; cases h
    rw [if_neg h1] at h
    by_cases h2 : mapClaimsValid t.claims now = false
    · rw [if_pos h2] at h; cases h
    rw [if_neg h2] at h
    by_cases h3 : t.sig = { key := getenvJwtSecret env, method := t.method, payload := t.claims }
    · rw [if_pos h3] at h
      cases h
      exact ⟨t, rfl, rfl, rfl, rfl⟩
    · rw [if_neg h3] at h; cases h

/-- A token produced by `createJWT` under a given environment validates
under the same environment at any time, yielding its own claims with
`Valid = true`. -/
theorem validateJWT_createJWT (env : Env) (a : Account) (t₁ now : Int) (tok : Token)
    (h : createJWT env a t₁ = Except.ok tok) :
    validateJWT env now (some tok) =
      Except.ok { method := .HS256, claims := tok.claims, valid := true } := by
  unfold createJWT at h
  cases h
  simp only [validateJWT]
  rw [if_neg (by simp [SigningMethod.isHMAC])]
  rw [if_neg (by simp [mapClaimsValid, lookupClaim])]
  simp

/-- The `accountNumber` claim of a token produced by `createJWT` is the
account's number. -/
theorem createJWT_accountNumber (env : Env) (a : Account) (t₁ : Int) (tok : Token)
    (h : createJWT env a t₁ = Except.ok tok) :
    lookupClaim "accountNumber" tok.claims = some (.num a.number) := by
  unfold createJWT at h
  cases h
  rfl

/-! ## Claim theorems -/

/-- Claim C1: for every token whose embedded `accountNumber` claim is A
presented against the protected resource of account B, if B's record
exists and its number differs from A, the ownership guard answers
403 "permission denied" (so the wrapped handler is not invoked,
`proceed` being the only handler-invoking outcome); and conversely every
request on which the guard proceeds to the wrapped handler carries a
token whose `accountNumber` claim equals the number of the account
record identified by the path id. -/
theorem withJWTAuth_ownership_enforced :
    (∀ (store : Store) (env : Env) (now tokenAcct : Int) (tok : Token) (r : Request)
        (b : Int) (acc : Account),
        r.xJwtToken = some tok →
        lookupClaim "accountNumber" tok.claims = some (.num tokenAcct) →
        r.pathId = some b →
        store b = some acc →
        acc.number ≠ tokenAcct →
        (withJWTAuth store env now r).outcome = .reject 403 "permission denied")
    ∧
    (∀ (store : Store) (env : Env) (now : Int) (r : Request),
        (withJWTAuth store env now r).outcome = .proceed →
        ∃ (tok : Token) (b : Int) (acc : Account),
          r.xJwtToken = some tok ∧ r.pathId = some b ∧ store b = some acc ∧
          lookupClaim "accountNumber" tok.claims = some (.num acc.number)) := by
  constructor
  · intro store env now A tok r b acc hr hcl hb hacc hne
    cases hv : validateJWT env now r.xJwtToken with
    | error e => simp [withJWTAuth, hv]
    | ok p =>
      obtain ⟨t, ht, hm, hc, hval⟩ := validateJWT_ok_elim env now _ p hv
      rw [hr] at ht
      injection ht with ht2
      subst ht2
      have hpl : lookupClaim "accountNumber" p.claims = some (.num A) := by
        rw [hc]; exact hcl
      simp [withJWTAuth, hv, hval, getID, hb, hacc, hpl, hne]
  · intro store env now r h
    cases hv : validateJWT env now r.xJwtToken with
    | error e => simp [withJWTAuth, hv] at h
    | ok p =>
      obtain ⟨t, ht, hm, hc, hval⟩ := validateJWT_ok_elim env now _ p hv
      cases hb : r.pathId with
      | none => simp [withJWTAuth, hv, hval, getID, hb] at h
      | some b =>
        cases hacc : store b with
        | none => simp [withJWTAuth, hv, hval, getID, hb, hacc] at h
        | some acc =>
          cases hl : lookupClaim "accountNumber" p.claims with
          | none => simp [withJWTAuth, hv, hval, getID, hb, hacc, hl] at h
          | some v =>
            cases v with
            | num n =>
              by_cases hne : acc.number = n
              · refine ⟨t, b, acc, ht, rfl, hacc, ?_⟩
                rw [← hc, hl, hne]
              · simp [withJWTAuth, hv, hval, getID, hb, hacc, hl, hne] at h
            | str s2 => simp [withJWTAuth, hv, hval, getID, hb, hacc, hl] at h
            | boolean b2 => simp [withJWTAuth, hv, hval, getID, hb, hacc, hl] at h
            | null => simp [withJWTAuth, hv, hval, getID, hb, hacc, hl] at h

/-- Witness for C1: the token of account 42 presented against account
id 2 (number 99) is rejected with 403 "permission denied". -/
theorem withJWTAuth_ownership_enforced_witness :
    (withJWTAuth demoStore envA 0
      { xJwtToken := some tok42, pathId := some 2 }).outcome =
      .reject 403 "permission denied" :=
  withJWTAuth_ownership_enforced.1 demoStore envA 0 42 tok42
    { xJwtToken := some tok42, pathId := some 2 } 2 acct99
    rfl rfl rfl rfl (by decide)

/-- Claim C2 (refuted, code bug): the claim says a token presented
after its embedded expiration timestamp is rejected with an expiration
error.  The code writes the expiration under the non-registered claim
name "expiresAt" (the constant 15000) instead of the registered "exp"
claim, so `jwt.Parse` validates no expiration at all: at current time
20000, strictly after the embedded 15000, the validator accepts the
issued token `tok42` with `Valid = true`, and the guard even proceeds
to the wrapped handler. -/
theorem validateJWT_ignores_elapsed_expiresAt :
    lookupClaim "expiresAt" tok42.claims = some (.num 15000) ∧
    (15000 : Int) < 20000 ∧
    validateJWT envA 20000 (some tok42) =
      Except.ok { method := .HS256, claims := tok42.claims, valid := true } ∧
    (withJWTAuth demoStore envA 20000
      { xJwtToken := some tok42, pathId := some 1 }).outcome = .proceed :=
  ⟨rfl, by decide, rfl, rfl⟩

/-- Claim C3: issuing a token for an account and validating it under
the same environment (at any time) succeeds, and the resulting claim
set carries the account's number under "accountNumber". -/
theorem createJWT_validateJWT_roundtrip (env : Env) (a : Account) (tIssue now : Int)
    (tok : Token) (h : createJWT env a tIssue = Except.ok tok) :
    ∃ p : ParsedToken, validateJWT env now (some tok) = Except.ok p ∧
      p.valid = true ∧ lookupClaim "accountNumber" p.claims = some (.num a.number) :=
  ⟨{ method := .HS256, claims := tok.claims, valid := true },
   validateJWT_createJWT env a tIssue now tok h, rfl,
   createJWT_accountNumber env a tIssue tok h⟩

/-- Witness for C3: the round trip at account 42. -/
theorem createJWT_validateJWT_roundtrip_witness :
    ∃ p : ParsedToken, validateJWT envA 12345 (some tok42) = Except.ok p ∧
      p.valid = true ∧ lookupClaim "accountNumber" p.claims = some (.num acct42.number) :=
  createJWT_validateJWT_roundtrip envA acct42 0 12345 tok42 rfl

/-- Claim C4: when the `x-jwt-token` header is missing (or the token
fails validation for any reason), the guard rejects with 403 before
`GetAccountByID` is ever called. -/
theorem withJWTAuth_rejects_before_store_lookup (store : Store) (env : Env) (now : Int)
    (r : Request)
    (h : r.xJwtToken = none ∨ ∃ e, validateJWT env now r.xJwtToken = Except.error e) :
    (withJWTAuth store env now r).storeLookup = false ∧
      (withJWTAuth store env now r).outcome = .reject 403 "permission denied" := by
  have he : ∃ e, validateJWT env now r.xJwtToken = Except.error e := by
    rcases h with h | h
    · exact ⟨.malformed, by rw [h]; rfl⟩
    · exact h
  obtain ⟨e, he⟩ := he
  constructor <;> simp [withJWTAuth, he]

/-- Witness for C4: a request without the header triggers no storage
lookup. -/
theorem withJWTAuth_rejects_before_store_lookup_witness :
    (withJWTAuth demoStore envA 0 { xJwtToken := none, pathId := some 1 }).storeLookup = false ∧
      (withJWTAuth demoStore envA 0 { xJwtToken := none, pathId := some 1 }).outcome =
        .reject 403 "permission denied" :=
  withJWTAuth_rejects_before_store_lookup demoStore envA 0
    { xJwtToken := none, pathId := some 1 } (Or.inl rfl)

/-- Claim C5: every validator error (malformed, unexpected algorithm,
expired, bad signature), the identifier-parse failure, and the
ownership mismatch all produce the one response 403 "permission
denied"; moreover the guard's only possible outcomes are that response,
the distinct 400 not-found response, the type-assertion panic, and
proceeding, so no rejection distinguishes which validation check
failed. -/
theorem withJWTAuth_uniform_rejection (store : Store) (env : Env) (now : Int) (r : Request) :
    ((∃ e, validateJWT env now r.xJwtToken = Except.error e) →
       (withJWTAuth store env now r).outcome = .reject 403 "permission denied")
    ∧ (∀ p : ParsedToken, validateJWT env now r.xJwtToken = Except.ok p → r.pathId = none →
       (withJWTAuth store env now r).outcome = .reject 403 "permission denied")
    ∧ (∀ (p : ParsedToken) (b : Int) (acc : Account) (n : Int),
       validateJWT env now r.xJwtToken = Except.ok p → r.pathId = some b →
       store b = some acc → lookupClaim "accountNumber" p.claims = some (.num n) →
       acc.number ≠ n →
       (withJWTAuth store env now r).outcome = .reject 403 "permission denied")
    ∧ ((withJWTAuth store env now r).outcome = .reject 403 "permission denied" ∨
       (withJWTAuth store env now r).outcome = .reject 400 "This account does not exist" ∨
       (withJWTAuth store env now r).outcome = .panicked ∨
       (withJWTAuth store env now r).outcome = .proceed) := by
  refine ⟨?_, ?_, ?_, ?_⟩
  · intro ⟨e, he⟩
    simp [withJWTAuth, he]
  · intro p hv hb
    obtain ⟨t, ht, hm, hc, hval⟩ := validateJWT_ok_elim env now _ p hv
    simp [withJWTAuth, hv, hval, getID, hb]
  · intro p b acc n hv hb hacc hl hne
    obtain ⟨t, ht, hm, hc, hval⟩ := validateJWT_ok_elim env now _ p hv
    simp [withJWTAuth, hv, hval, getID, hb, hacc, hl, hne]
  · cases hv : validateJWT env now r.xJwtToken with
    | error e => exact Or.inl (by simp [withJWTAuth, hv])
    | ok p =>
      obtain ⟨t, ht, hm, hc, hval⟩ := validateJWT_ok_elim env now _ p hv
      cases hb : r.pathId with
      | none => exact Or.inl (by simp [withJWTAuth, hv, hval, getID, hb])
      | some b =>
        cases hacc : store b with
        | none => exact Or.inr (Or.inl (by simp [withJWTAuth, hv, hval, getID, hb, hacc]))
        | some acc =>
          cases hl : lookupClaim "accountNumber" p.claims with
          | none =>
            exact Or.inr (Or.inr (Or.inl (by simp [withJWTAuth, hv, hval, getID, hb, hacc, hl])))
          | some v =>
            cases v with
            | num n =>
              by_cases hne : acc.number = n
              · exact Or.inr (Or.inr (Or.inr
                  (by simp [withJWTAuth, hv, hval, getID, hb, hacc, hl, hne])))
              · exact Or.inl (by simp [withJWTAuth, hv, hval, getID, hb, hacc, hl, hne])
            | str s2 =>
              exact Or.inr (Or.inr (Or.inl (by simp [withJWTAuth, hv, hval, getID, hb, hacc, hl])))
            | boolean b2 =>
              exact Or.inr (Or.inr (Or.inl (by simp [withJWTAuth, hv, hval, getID, hb, hacc, hl])))
            | null =>
              exact Or.inr (Or.inr (Or.inl (by simp [withJWTAuth, hv, hval, getID, hb, hacc, hl])))

/-- Witness for C5: a valid token with an unparseable path id gets the
same 403 "permission denied". -/
theorem withJWTAuth_uniform_rejection_witness :
    (withJWTAuth demoStore envA 0 { xJwtToken := some tok42, pathId := none }).outcome =
      .reject 403 "permission denied" :=
  (withJWTAuth_uniform_rejection demoStore envA 0
      { xJwtToken := some tok42, pathId := none }).2.1
    { method := .HS256, claims := tok42.claims, valid := true } rfl rfl

/-- Claim C6: with a valid token and a parseable path id, a failing
`GetAccountByID` lookup makes the guard answer 400 "This account does
not exist" — distinct from the 403 "permission denied" response — after
the lookup, without invoking the wrapped handler. -/
theorem withJWTAuth_absent_account_bad_request (store : Store) (env : Env) (now : Int)
    (r : Request) (p : ParsedToken) (b : Int)
    (hv : validateJWT env now r.xJwtToken = Except.ok p)
    (hb : r.pathId = some b)
    (hs : store b = none) :
    withJWTAuth store env now r =
      { outcome := .reject 400 "This account does not exist", storeLookup := true } ∧
    (withJWTAuth store env now r).outcome ≠ .reject 403 "permission denied" ∧
    (withJWTAuth store env now r).outcome ≠ .proceed := by
  obtain ⟨t, ht, hm, hc, hval⟩ := validateJWT_ok_elim env now _ p hv
  refine ⟨?_, ?_, ?_⟩ <;> simp [withJWTAuth, hv, hval, getID, hb, hs]

/-- Witness for C6: a valid token targeting absent account id 7. -/
theorem withJWTAuth_absent_account_bad_request_witness :
    withJWTAuth demoStore envA 0 { xJwtToken := some tok42, pathId := some 7 } =
      { outcome := .reject 400 "This account does not exist", storeLookup := true } :=
  (withJWTAuth_absent_account_bad_request demoStore envA 0
      { xJwtToken := some tok42, pathId := some 7 }
      { method := .HS256, claims := tok42.claims, valid := true } 7
      rfl rfl rfl).1

/-- Claim C7 (refuted, code bug): the claim says a missing
`JWT_SECRET` makes the system fail fast rather than sign with an empty
key.  In the code `os.Getenv` returns the empty string when the
variable is unset and `createJWT` signs with it unconditionally: with
the environment variable absent, issuance succeeds and the token's
signature is keyed by the zero-length string. -/
theorem createJWT_empty_secret_when_env_absent (a : Account) (tIssue : Int) :
    getenvJwtSecret none = "" ∧
    createJWT none a tIssue =
      Except.ok { method := .HS256,
                  claims := [("expiresAt", .num 15000), ("accountNumber", .num a.number)],
                  sig := { key := "", method := .HS256,
                           payload := [("expiresAt", .num 15000),
                                       ("accountNumber", .num a.number)] } } :=
  ⟨rfl, rfl⟩

/-- Witness for C7: issuance with the secret unset at a concrete
account. -/
theorem createJWT_empty_secret_when_env_absent_witness :
    getenvJwtSecret none = "" ∧
    createJWT none acct42 0 =
      Except.ok { method := .HS256,
                  claims := [("expiresAt", .num 15000), ("accountNumber", .num acct42.number)],
                  sig := { key := "", method := .HS256,
                           payload := [("expiresAt", .num 15000),
                                       ("accountNumber", .num acct42.number)] } } :=
  createJWT_empty_secret_when_env_absent acct42 0

/-- Counterexample to C8 as stated: a token signed with the server
secret whose claim set lacks an `accountNumber` entry is accepted by
the validator (`Valid = true`), yet the guard's
`claims["accountNumber"].(float64)` type assertion fails — a Go
runtime panic — on the guarded path. -/
theorem withJWTAuth_panics_on_secret_signed_foreign_claims :
    validateJWT envA 0 (some noNumberToken) =
      Except.ok { method := .HS256, claims := noNumberToken.claims, valid := true } ∧
    (withJWTAuth demoStore envA 0
      { xJwtToken := some noNumberToken, pathId := some 1 }).outcome = .panicked :=
  ⟨rfl, rfl⟩

/-- Claim C8 as amended: the guard's claim extraction cannot panic on
requests whose token carries a numeric `accountNumber` claim — in
particular every token produced by `createJWT` carries one, so tokens
from the issuer never make the type assertions fail. -/
theorem withJWTAuth_no_panic_with_numeric_accountNumber :
    (∀ (store : Store) (env : Env) (now : Int) (r : Request),
       (∀ tok : Token, r.xJwtToken = some tok →
          ∃ n : Int, lookupClaim "accountNumber" tok.claims = some (.num n)) →
       (withJWTAuth store env now r).outcome ≠ .panicked)
    ∧
    (∀ (env : Env) (a : Account) (tIssue : Int) (tok : Token),
       createJWT env a tIssue = Except.ok tok →
       ∃ n : Int, lookupClaim "accountNumber" tok.claims = some (.num n)) := by
  constructor
  · intro store env now r hnum
    cases hv : validateJWT env now r.xJwtToken with
    | error e => simp [withJWTAuth, hv]
    | ok p =>
      obtain ⟨t, ht, hm, hc, hval⟩ := validateJWT_ok_elim env now _ p hv
      obtain ⟨n, hn⟩ := hnum t ht
      have hpl : lookupClaim "accountNumber" p.claims = some (.num n) := by
        rw [hc]; exact hn
      cases hb : r.pathId with
      | none => simp [withJWTAuth, hv, hval, getID, hb]
      | some b =>
        cases hacc : store b with
        | none => simp [withJWTAuth, hv, hval, getID, hb, hacc]
        | some acc =>
          by_cases hne : acc.number = n
          · simp [withJWTAuth, hv, hval, getID, hb, hacc, hpl, hne]
          · simp [withJWTAuth, hv, hval, getID, hb, hacc, hpl, hne]
  · intro env a tIssue tok h
    exact ⟨a.number, createJWT_accountNumber env a tIssue tok h⟩

/-- Witness for amended C8: the issued token of account 42 never makes
the guard panic. -/
theorem withJWTAuth_no_panic_with_numeric_accountNumber_witness :
    (withJWTAuth demoStore envA 0
      { xJwtToken := some tok42, pathId := some 2 }).outcome ≠ .panicked :=
  withJWTAuth_no_panic_with_numeric_accountNumber.1 demoStore envA 0
    { xJwtToken := some tok42, pathId := some 2 }
    (fun tok htok => by cases htok; exact ⟨42, rfl⟩)

/-- Claim C9: token issuance is deterministic and time-independent —
under a fixed environment, issuing for accounts with equal numbers at
any two issue times yields the identical token, since the claim set is
built only from the constant 15000 and the account number. -/
theorem createJWT_deterministic_time_independent (env : Env) (a₁ a₂ : Account)
    (t₁ t₂ : Int) (h : a₁.number = a₂.number) :
    createJWT env a₁ t₁ = createJWT env a₂ t₂ := by
  unfold createJWT
  rw [h]

/-- Witness for C9: two issue times, two accounts with number 42, one
token. -/
theorem createJWT_deterministic_time_independent_witness :
    createJWT envA acct42 0 = createJWT envA { id := 5, number := 42 } 987654321 :=
  createJWT_deterministic_time_independent envA acct42 { id := 5, number := 42 }
    0 987654321 rfl

/-- Claim C10: only `/account/{id}` is wrapped in `withJWTAuth`;
`/login`, `/account` and `/transfer` are registered plain, and a plain
entry is dispatched with no token validation and with its handler
invoked on every request, whatever the `x-jwt-token` header holds. -/
theorem router_jwt_only_on_account_id :
    (router "/account" = some (.plain .handleAccount) ∧
     router "/transfer" = some (.plain .handleTransfer) ∧
     router "/login" = some (.plain .handleLogin) ∧
     router "/account/{id}" = some (.jwtWrapped .handleAccountWithID)) ∧
    (∀ (store : Store) (env : Env) (now : Int) (hn : HandlerName) (r : Request),
       dispatch store env now (.plain hn) r =
         { tokenChecked := false, handlerInvoked := true, guard := none }) :=
  ⟨⟨rfl, rfl, rfl, rfl⟩, fun _ _ _ _ _ => rfl⟩

/-- Witness for C10: a request to the account-list route with a token
header still reaches its handler without validation. -/
theorem router_jwt_only_on_account_id_witness :
    dispatch demoStore envA 0 (.plain .handleAccount)
      { xJwtToken := some tok42, pathId := none } =
      { tokenChecked := false, handlerInvoked := true, guard := none } :=
  router_jwt_only_on_account_id.2 demoStore envA 0 .handleAccount
    { xJwtToken := some tok42, pathId := none }

end GoBank
